import Mathlib

/-!
Shallow embedding of the project/stage/request lifecycle state machine of the
project-planning cloud API (src/app/services and src/app/models), together with
proofs about the embedded operations.

Conventions of the embedding:
* SQLAlchemy models become structures; UUIDs become `Nat` identifiers;
  `datetime`/`date` values become `Nat` instants (only their order matters).
* Python enums become inductive types; members are identified by their string
  value (the `Observacion` model spells the member names in upper case while
  every use site spells them in lower case, but the underlying values agree,
  so a single constructor per value is used).
* Service methods that mutate ORM objects and commit become pure functions
  returning the updated state; an uncaught `HTTPException` becomes an
  `Except` error value (the services raise before mutating, so an error value
  also asserts that no entity was changed).
-/

namespace PlanningCloud

/-- `EstadoPedido` from src/app/models/pedido.py (upper-case values). -/
inductive EstadoPedido where
  | PENDIENTE
  | COMPROMETIDO
  | COMPLETADO
deriving DecidableEq

/-- `TipoPedido` from src/app/models/pedido.py. -/
inductive TipoPedido where
  | ECONOMICO
  | MATERIALES
  | MANO_OBRA
  | TRANSPORTE
  | EQUIPAMIENTO
deriving DecidableEq

/-- `EstadoEtapa` from src/app/models/etapa.py. -/
inductive EstadoEtapa where
  | pendiente
  | financiada
  | esperando_ejecucion
  | en_ejecucion
  | completada
deriving DecidableEq

/-- `EstadoOferta` from src/app/models/oferta.py. -/
inductive EstadoOferta where
  | pendiente
  | aceptada
  | rechazada
deriving DecidableEq

/-- `EstadoProyecto` from src/app/models/proyecto.py. -/
inductive EstadoProyecto where
  | pendiente
  | en_ejecucion
  | finalizado
deriving DecidableEq

/-- `EstadoObservacion` from src/app/models/observacion.py.  The members are
NAMED `PENDIENTE`/`RESUELTA`/`VENCIDA` (their string values are the lower-case
words); the constructor names here follow the member names, because Python
resolves enum members by name. -/
inductive EstadoObservacion where
  | PENDIENTE
  | RESUELTA
  | VENCIDA
deriving DecidableEq

/-- Python attribute resolution on the `EstadoObservacion` enum class:
`EnumMeta.__getattr__` looks the NAME up in the member map and raises
`AttributeError` when no member has that name — values play no part.  The
member names come from src/app/models/observacion.py lines 19-24. -/
def EstadoObservacion.attr : String → Option EstadoObservacion
  | "PENDIENTE" => some EstadoObservacion.PENDIENTE
  | "RESUELTA" => some EstadoObservacion.RESUELTA
  | "VENCIDA" => some EstadoObservacion.VENCIDA
  | _ => none

/-- `UserRole` from src/app/models/user.py. -/
inductive UserRole where
  | COUNCIL
  | MEMBER
deriving DecidableEq

/-- The authenticated actor: `User` plus the dynamically attached
`is_bonita_actor` flag checked via `getattr(user, "is_bonita_actor", False)`. -/
structure User where
  id : Nat
  role : UserRole
  is_bonita_actor : Bool
deriving DecidableEq

/-- `Pedido` from src/app/models/pedido.py (fields relevant to the lifecycle;
`fecha_comprometido`/`fecha_completado` are the state-transition timestamps). -/
structure Pedido where
  id : Nat
  tipo : TipoPedido
  descripcion : String
  estado : EstadoPedido
  fecha_comprometido : Option Nat
  fecha_completado : Option Nat
deriving DecidableEq

/-- `Etapa` from src/app/models/etapa.py with its `pedidos` relationship. -/
structure Etapa where
  nombre : String
  estado : EstadoEtapa
  fecha_completitud : Option Nat
  fecha_financiada : Option Nat
  fecha_en_ejecucion : Option Nat
  pedidos : List Pedido
deriving DecidableEq

/-- `Oferta` from src/app/models/oferta.py. -/
structure Oferta where
  id : Nat
  pedido_id : Nat
  user_id : Nat
  descripcion : String
  monto_ofrecido : Option Int
  estado : EstadoOferta
deriving DecidableEq

/-- `Proyecto` from src/app/models/proyecto.py with its `etapas` relationship. -/
structure Proyecto where
  id : Nat
  user_id : Nat
  estado : EstadoProyecto
  fecha_en_ejecucion : Option Nat
  etapas : List Etapa
deriving DecidableEq

/-- `Observacion` from src/app/models/observacion.py. -/
structure Observacion where
  id : Nat
  proyecto_id : Nat
  council_user_id : Nat
  descripcion : String
  estado : EstadoObservacion
  fecha_limite : Nat
deriving DecidableEq

/-! ## State machine core (src/app/services/state_machine.py) -/

/-- `etapa_pedidos_pendientes`: pedidos still pending funding. -/
def etapa_pedidos_pendientes (etapa : Etapa) : List Pedido :=
  etapa.pedidos.filter (fun pedido => decide (pedido.estado = EstadoPedido.PENDIENTE))

/-- `etapa_all_pedidos_financed`: true when the etapa has pedidos and all are
COMPLETADO (`bool(pedidos) and all(...)`). -/
def etapa_all_pedidos_financed (etapa : Etapa) : Bool :=
  !etapa.pedidos.isEmpty &&
    etapa.pedidos.all (fun pedido => decide (pedido.estado = EstadoPedido.COMPLETADO))

/-- `etapa_all_pedidos_completed` (same body as `etapa_all_pedidos_financed`). -/
def etapa_all_pedidos_completed (etapa : Etapa) : Bool :=
  !etapa.pedidos.isEmpty &&
    etapa.pedidos.all (fun pedido => decide (pedido.estado = EstadoPedido.COMPLETADO))

/-- `can_auto_calculate_state`: `etapa.estado in [pendiente, financiada]`. -/
def can_auto_calculate_state (etapa : Etapa) : Bool :=
  decide (etapa.estado = EstadoEtapa.pendiente) || decide (etapa.estado = EstadoEtapa.financiada)

/-- `refresh_etapa_state`: auto-recompute of the etapa state.  The Python
function mutates `etapa` and returns the resulting estado; here it returns the
updated etapa (`.estado` is the returned status).  `now` stands for
`datetime.now(timezone.utc)` evaluated at the call. -/
def refresh_etapa_state (etapa : Etapa) (now : Nat) : Etapa :=
  if !can_auto_calculate_state etapa then etapa
  else if etapa_all_pedidos_financed etapa then
    { etapa with estado := EstadoEtapa.financiada, fecha_financiada := some now }
  else
    { etapa with estado := EstadoEtapa.pendiente,
                 fecha_completitud := none, fecha_financiada := none }

theorem refresh_etapa_state_pedidos (etapa : Etapa) (now : Nat) :
    (refresh_etapa_state etapa now).pedidos = etapa.pedidos := by
  unfold refresh_etapa_state
  split
  · rfl
  · split <;> rfl

theorem can_auto_of_financiada (etapa : Etapa) (t : Option Nat) :
    can_auto_calculate_state
      { etapa with
        estado := EstadoEtapa.financiada,
        fecha_financiada := t } = true := by
  simp [can_auto_calculate_state]

theorem financed_of_update_financiada (etapa : Etapa) (t : Option Nat) :
    etapa_all_pedidos_financed
      { etapa with
        estado := EstadoEtapa.financiada,
        fecha_financiada := t } = etapa_all_pedidos_financed etapa := by
  simp [etapa_all_pedidos_financed]

/-- An etapa that recomputed to `pendiente`: an auto-derivable status with
financing not reached. -/
theorem refresh_manual_noop (etapa : Etapa) (now : Nat)
    (h : can_auto_calculate_state etapa = false) :
    refresh_etapa_state etapa now = etapa := by
  unfold refresh_etapa_state
  simp [h]

theorem refresh_financed (etapa : Etapa) (now : Nat)
    (hca : can_auto_calculate_state etapa = true)
    (hfin : etapa_all_pedidos_financed etapa = true) :
    refresh_etapa_state etapa now =
      { etapa with estado := EstadoEtapa.financiada, fecha_financiada := some now } := by
  unfold refresh_etapa_state
  simp [hca, hfin]

theorem refresh_not_financed (etapa : Etapa) (now : Nat)
    (hca : can_auto_calculate_state etapa = true)
    (hfin : etapa_all_pedidos_financed etapa = false) :
    refresh_etapa_state etapa now =
      { etapa with estado := EstadoEtapa.pendiente,
                   fecha_completitud := none, fecha_financiada := none } := by
  unfold refresh_etapa_state
  simp [hca, hfin]

/-- A second `refresh_etapa_state` call, with the pedidos untouched in between,
behaves exactly like a single call at the second call's time: the only field it
can move is `fecha_financiada`, which is re-stamped with the later `now`. -/
theorem refresh_refresh (etapa : Etapa) (t₁ t₂ : Nat) :
    refresh_etapa_state (refresh_etapa_state etapa t₁) t₂ =
      refresh_etapa_state etapa t₂ := by
  by_cases hca : can_auto_calculate_state etapa = true
  · by_cases hfin : etapa_all_pedidos_financed etapa = true
    · rw [refresh_financed etapa t₁ hca hfin,
        refresh_financed _ t₂ (can_auto_of_financiada etapa (some t₁))
          (by rw [financed_of_update_financiada]; exact hfin),
        refresh_financed etapa t₂ hca hfin]
    · rw [refresh_not_financed etapa t₁ hca (Bool.eq_false_iff.mpr hfin),
        refresh_not_financed etapa t₂ hca (Bool.eq_false_iff.mpr hfin)]
      rw [refresh_not_financed]
      · simp [can_auto_calculate_state]
      · simpa [etapa_all_pedidos_financed] using Bool.eq_false_iff.mpr hfin
  · rw [refresh_manual_noop etapa t₁ (Bool.eq_false_iff.mpr hca)]

/-- C4 — corrected.  `refresh_etapa_state` is NOT literally change-free on a
second back-to-back call: when the etapa derives to `financiada`, each call
re-stamps `fecha_financiada` with its own `datetime.now()`
(src/app/services/state_machine.py line 66), so a second call at a later
instant moves that timestamp (see the counterexample).  What does hold, and is
proved here: the second call yields the same `estado` as the first, and the
state after the second call is exactly the state a single call at the second
call's time produces — so with the call instant held fixed the second call is a
no-op, and in the `pendiente` and manual branches it is a no-op outright. -/
theorem C4_theorem (etapa : Etapa) (t₁ t₂ : Nat) :
    refresh_etapa_state (refresh_etapa_state etapa t₁) t₂ =
      refresh_etapa_state etapa t₂ ∧
    (refresh_etapa_state (refresh_etapa_state etapa t₁) t₂).estado =
      (refresh_etapa_state etapa t₁).estado := by
  refine ⟨refresh_refresh etapa t₁ t₂, ?_⟩
  rw [refresh_refresh etapa t₁ t₂]
  by_cases hca : can_auto_calculate_state etapa = true
  · by_cases hfin : etapa_all_pedidos_financed etapa = true
    · rw [refresh_financed etapa t₁ hca hfin, refresh_financed etapa t₂ hca hfin]
    · rw [refresh_not_financed etapa t₁ hca (Bool.eq_false_iff.mpr hfin),
        refresh_not_financed etapa t₂ hca (Bool.eq_false_iff.mpr hfin)]
  · rw [refresh_manual_noop etapa t₁ (Bool.eq_false_iff.mpr hca),
      refresh_manual_noop etapa t₂ (Bool.eq_false_iff.mpr hca)]

/-- A pendiente etapa whose single pedido is COMPLETADO: it derives to
`financiada`, so each refresh stamps `fecha_financiada` with its call time. -/
def etapaFinanciadaEjemplo : Etapa :=
  { nombre := "fundaciones", estado := EstadoEtapa.pendiente,
    fecha_completitud := none, fecha_financiada := none, fecha_en_ejecucion := none,
    pedidos := [{ id := 1, tipo := TipoPedido.ECONOMICO, descripcion := "cemento",
                  estado := EstadoPedido.COMPLETADO,
                  fecha_comprometido := none, fecha_completado := none }] }

/-- C4 — counterexample to the claim as stated: calling `refresh_etapa_state`
twice in a row (no pedido change in between, the function never touches
pedidos) at instants 0 and then 1 DOES change the etapa further on the second
call — `fecha_financiada` moves from `some 0` to `some 1`. -/
theorem C4_counterexample :
    refresh_etapa_state (refresh_etapa_state etapaFinanciadaEjemplo 0) 1 ≠
      refresh_etapa_state etapaFinanciadaEjemplo 0 := by decide

/-- C5 — confirmed.  For an etapa in a manual state (`en_ejecucion` or
`completada`), `refresh_etapa_state` returns with no change whatsoever:
`can_auto_calculate_state` is false, so the function returns the current estado
immediately (src/app/services/state_machine.py lines 59-61) leaving the estado
and every timestamp field (`fecha_completitud`, `fecha_financiada`,
`fecha_en_ejecucion`) untouched, for any configuration of pedidos. -/
theorem C5_theorem (etapa : Etapa) (now : Nat)
    (h : etapa.estado = EstadoEtapa.en_ejecucion ∨
         etapa.estado = EstadoEtapa.completada) :
    refresh_etapa_state etapa now = etapa := by
  apply refresh_manual_noop
  unfold can_auto_calculate_state
  rcases h with h | h <;> simp [h]

/-- C5 — witness: a concrete `en_ejecucion` etapa with a pending pedido is left
untouched by the recompute. -/
theorem C5_witness :
    refresh_etapa_state
      { nombre := "obra", estado := EstadoEtapa.en_ejecucion,
        fecha_completitud := none, fecha_financiada := some 2,
        fecha_en_ejecucion := some 3,
        pedidos := [{ id := 9, tipo := TipoPedido.MATERIALES, descripcion := "ladrillos",
                      estado := EstadoPedido.PENDIENTE,
                      fecha_comprometido := none, fecha_completado := none }] } 7 =
      { nombre := "obra", estado := EstadoEtapa.en_ejecucion,
        fecha_completitud := none, fecha_financiada := some 2,
        fecha_en_ejecucion := some 3,
        pedidos := [{ id := 9, tipo := TipoPedido.MATERIALES, descripcion := "ladrillos",
                      estado := EstadoPedido.PENDIENTE,
                      fecha_comprometido := none, fecha_completado := none }] } :=
  C5_theorem _ 7 (Or.inl rfl)

/-- C6 — confirmed.  An etapa with zero pedidos is never financed: the
`bool(pedidos)` guard in `etapa_all_pedidos_financed` makes it false, so the
recompute on an auto-derivable etapa always derives `pendiente`. -/
theorem C6_theorem (etapa : Etapa) (now : Nat) (h : etapa.pedidos = [])
    (hca : can_auto_calculate_state etapa = true) :
    etapa_all_pedidos_financed etapa = false ∧
    (refresh_etapa_state etapa now).estado = EstadoEtapa.pendiente := by
  have hfin : etapa_all_pedidos_financed etapa = false := by
    unfold etapa_all_pedidos_financed
    simp [h]
  refine ⟨hfin, ?_⟩
  rw [refresh_not_financed etapa now hca hfin]

/-- C6 — witness: a concrete empty financiada-state etapa recomputes to
pendiente. -/
theorem C6_witness :
    etapa_all_pedidos_financed
      { nombre := "vacia", estado := EstadoEtapa.financiada,
        fecha_completitud := none, fecha_financiada := some 1,
        fecha_en_ejecucion := none, pedidos := [] } = false ∧
    (refresh_etapa_state
      { nombre := "vacia", estado := EstadoEtapa.financiada,
        fecha_completitud := none, fecha_financiada := some 1,
        fecha_en_ejecucion := none, pedidos := [] } 4).estado =
      EstadoEtapa.pendiente :=
  C6_theorem _ 4 rfl rfl

/-! ## Project lifecycle (src/app/services/proyecto_service.py) -/

/-- `PedidoPendienteInfo` from src/app/schemas/proyecto.py: the structured
detail row built by `start_project` for each unfinanced pedido. -/
structure PedidoPendienteInfo where
  pedido_id : Nat
  etapa_nombre : String
  tipo : TipoPedido
  estado : EstadoPedido
  descripcion : String
deriving DecidableEq

/-- The typed failures `ProyectoService.start_project` can raise. -/
inductive StartProjectError where
  | notFound
  | forbidden
  | invalidStateProyecto (estado : EstadoProyecto)
  | pedidosSinFinanciar (pedidos : List PedidoPendienteInfo)
deriving DecidableEq

/-- The `pedidos_sin_financiar` list accumulated by `start_project` over the
(already refreshed) etapas: one `PedidoPendienteInfo` per pending pedido. -/
def pedidosSinFinanciar (etapas : List Etapa) : List PedidoPendienteInfo :=
  (etapas.map (fun etapa =>
    (etapa_pedidos_pendientes etapa).map (fun pedido =>
      { pedido_id := pedido.id, etapa_nombre := etapa.nombre, tipo := pedido.tipo,
        estado := pedido.estado, descripcion := pedido.descripcion }))).flatten

/-- `ProyectoService.start_project` (src/app/services/proyecto_service.py
lines 204-290).  The `db.get` lookup is resolved: the function receives the
loaded `Proyecto`.  Checks, in source order: ownership (skipped for the Bonita
system actor), current estado `pendiente`, then re-derives every etapa via
`refresh_etapa_state` and fails with the structured pending-pedidos detail if
any pedido is still PENDIENTE; on success the proyecto moves to `en_ejecucion`
(stamping `fecha_en_ejecucion`) and every etapa not `completada` moves to
`esperando_ejecucion` with `fecha_completitud` cleared. -/
def start_project (proyecto : Proyecto) (user : User) (now : Nat) :
    Except StartProjectError Proyecto :=
  if ¬user.is_bonita_actor = true ∧ proyecto.user_id ≠ user.id then
    Except.error StartProjectError.forbidden
  else if proyecto.estado ≠ EstadoProyecto.pendiente then
    Except.error (StartProjectError.invalidStateProyecto proyecto.estado)
  else
    let etapas' := proyecto.etapas.map (fun etapa => refresh_etapa_state etapa now)
    if pedidosSinFinanciar etapas' ≠ [] then
      Except.error (StartProjectError.pedidosSinFinanciar (pedidosSinFinanciar etapas'))
    else
      Except.ok
        { proyecto with
          estado := EstadoProyecto.en_ejecucion,
          fecha_en_ejecucion := some now,
          etapas := etapas'.map (fun etapa =>
            if etapa.estado ≠ EstadoEtapa.completada then
              { etapa with
                estado := EstadoEtapa.esperando_ejecucion,
                fecha_completitud := none }
            else etapa) }

/-- `True` exactly on an `Except.ok` result. -/
def exceptOk {ε α : Type} : Except ε α → Bool
  | Except.ok _ => true
  | Except.error _ => false

theorem pedidosSinFinanciar_eq_nil_iff (etapas : List Etapa) :
    pedidosSinFinanciar etapas = [] ↔
      ∀ etapa ∈ etapas, etapa_pedidos_pendientes etapa = [] := by
  unfold pedidosSinFinanciar
  rw [List.flatten_eq_nil_iff]
  constructor
  · intro h etapa hmem
    have := h _ (List.mem_map_of_mem _ hmem)
    exact List.map_eq_nil_iff.mp this
  · intro h l hl
    rcases List.mem_map.mp hl with ⟨etapa, hmem, rfl⟩
    simp [h etapa hmem]

/-- C1 — amended claim.  For an owner (or Bonita system actor) starting a
`pendiente` proyecto: `start_project` succeeds iff, after re-deriving every
etapa with `refresh_etapa_state`, NO etapa has a pedido left in PENDIENTE
state; on success the proyecto is moved to `en_ejecucion`, and on failure the
error is `InvalidState` carrying exactly the structured list of the pending
pedidos (the proyecto value is returned untouched — the exception is raised
before any proyecto mutation is committed).  Note the success condition is
weaker than "every etapa financed": COMPROMETIDO pedidos and etapas with zero
pedidos do not block the start (see the counterexample). -/
theorem C1_theorem (proyecto : Proyecto) (user : User) (now : Nat)
    (hown : user.is_bonita_actor = true ∨ proyecto.user_id = user.id)
    (hpend : proyecto.estado = EstadoProyecto.pendiente) :
    (exceptOk (start_project proyecto user now) = true ↔
      ∀ etapa ∈ proyecto.etapas.map (fun etapa => refresh_etapa_state etapa now),
        etapa_pedidos_pendientes etapa = []) ∧
    (∀ proyecto', start_project proyecto user now = Except.ok proyecto' →
      proyecto'.estado = EstadoProyecto.en_ejecucion ∧
      proyecto'.fecha_en_ejecucion = some now) ∧
    (∀ err, start_project proyecto user now = Except.error err →
      err = StartProjectError.pedidosSinFinanciar
        (pedidosSinFinanciar
          (proyecto.etapas.map (fun etapa => refresh_etapa_state etapa now))) ∧
      pedidosSinFinanciar
        (proyecto.etapas.map (fun etapa => refresh_etapa_state etapa now)) ≠ []) := by
  have hownFalse : ¬(¬user.is_bonita_actor = true ∧ proyecto.user_id ≠ user.id) := by
    rcases hown with h | h
    · intro hc; exact hc.1 h
    · intro hc; exact hc.2 h
  unfold start_project
  rw [if_neg hownFalse, if_neg (by simp [hpend])]
  by_cases hnil :
      pedidosSinFinanciar
        (proyecto.etapas.map (fun etapa => refresh_etapa_state etapa now)) = []
  · rw [if_neg (by simpa using hnil)]
    refine ⟨?_, ?_, ?_⟩
    · have hforall := (pedidosSinFinanciar_eq_nil_iff _).mp hnil
      simp only [exceptOk]
      exact ⟨fun _ => hforall, fun _ => trivial⟩
    · intro proyecto' h
      cases h
      exact ⟨rfl, rfl⟩
    · intro err h
      cases h
  · rw [if_pos (by simpa using hnil)]
    refine ⟨?_, ?_, ?_⟩
    · simp only [exceptOk]
      constructor
      · intro h; cases h
      · intro h
        exact absurd ((pedidosSinFinanciar_eq_nil_iff _).mpr h) hnil
    · intro proyecto' h
      cases h
    · intro err h
      cases h
      exact ⟨rfl, hnil⟩

/-- A proyecto whose single etapa has one COMPROMETIDO pedido: no pedido is
PENDIENTE, yet the etapa is not financed (it re-derives to `pendiente`). -/
def proyectoComprometidoEjemplo : Proyecto :=
  { id := 1, user_id := 5, estado := EstadoProyecto.pendiente,
    fecha_en_ejecucion := none,
    etapas := [{ nombre := "techo", estado := EstadoEtapa.pendiente,
                 fecha_completitud := none, fecha_financiada := none,
                 fecha_en_ejecucion := none,
                 pedidos := [{ id := 2, tipo := TipoPedido.MATERIALES,
                               descripcion := "chapas",
                               estado := EstadoPedido.COMPROMETIDO,
                               fecha_comprometido := none,
                               fecha_completado := none }] }] }

/-- C1 — counterexample to the claim as stated: the owner starts a `pendiente`
proyecto whose only etapa holds one COMPROMETIDO pedido.  `start_project`
succeeds (no pedido is PENDIENTE), yet after the defensive recompute the etapa
is NOT `financiada` — the pedido is not COMPLETADO — refuting "transitions to
in_execution if and only if every Stage is financed". -/
theorem C1_counterexample :
    exceptOk (start_project proyectoComprometidoEjemplo
      { id := 5, role := UserRole.MEMBER, is_bonita_actor := false } 0) = true ∧
    ((proyectoComprometidoEjemplo.etapas.map
        (fun etapa => refresh_etapa_state etapa 0)).all
      (fun etapa => decide (etapa.estado = EstadoEtapa.financiada))) = false := by
  decide

/-- C1 — witness: on a proyecto with one still-PENDIENTE pedido the start is
refused with exactly that pedido in the structured detail, and on the
counterexample proyecto (no pending pedidos) it succeeds. -/
theorem C1_witness :
    exceptOk (start_project proyectoComprometidoEjemplo
      { id := 5, role := UserRole.MEMBER, is_bonita_actor := false } 3) = true :=
  (C1_theorem proyectoComprometidoEjemplo
    { id := 5, role := UserRole.MEMBER, is_bonita_actor := false } 3
    (Or.inr rfl) rfl).1.mpr (by decide)

/-! ## Request/Offer lifecycle (src/app/services/oferta_service.py and
src/app/services/pedido_service.py) -/

/-- The typed failure taxonomy of the offer lifecycle endpoints.  Every raise
site carries a distinct detail message; `alreadyConfirmed` is the dedicated
friendly branch of `confirm_realizacion` for a pedido already COMPLETADO
(src/app/services/oferta_service.py lines 289-294), kept apart from the
generic `invalidState`. -/
inductive ApiError where
  | notFound
  | forbidden
  | invalidState
  | conflict
  | alreadyConfirmed
deriving DecidableEq

/-- The slice of the store an offer-lifecycle call touches: the owner id of
the proyecto reached through the pedido → etapa → proyecto chain of
`_verify_project_ownership`, the etapa with its pedidos, and the ofertas on
those pedidos. -/
structure LifecycleState where
  ownerId : Nat
  etapa : Etapa
  ofertas : List Oferta
deriving DecidableEq

def findOferta (s : LifecycleState) (oferta_id : Nat) : Option Oferta :=
  s.ofertas.find? (fun o => decide (o.id = oferta_id))

def findPedido (s : LifecycleState) (pedido_id : Nat) : Option Pedido :=
  s.etapa.pedidos.find? (fun p => decide (p.id = pedido_id))

/-- `pedido.estado = st` through the session: every pedido row carrying this
primary key is updated. -/
def setPedidoEstado (etapa : Etapa) (pedido_id : Nat) (st : EstadoPedido) : Etapa :=
  { etapa with
    pedidos := etapa.pedidos.map (fun p =>
      if p.id = pedido_id then { p with estado := st } else p) }

/-- `PedidoService.mark_as_comprometido` (src/app/services/pedido_service.py
lines 250-273): sets the pedido estado to COMPROMETIDO and refreshes the
parent etapa.  The method never writes `fecha_comprometido`. -/
def mark_as_comprometido (etapa : Etapa) (pedido_id : Nat) (now : Nat) : Etapa :=
  refresh_etapa_state (setPedidoEstado etapa pedido_id EstadoPedido.COMPROMETIDO) now

/-- `PedidoService.mark_as_completed` (lines 275-298): sets the pedido estado
to COMPLETADO and refreshes the parent etapa. -/
def mark_as_completed (etapa : Etapa) (pedido_id : Nat) (now : Nat) : Etapa :=
  refresh_etapa_state (setPedidoEstado etapa pedido_id EstadoPedido.COMPLETADO) now

/-- `OfertaService.create` (lines 27-83): the pedido must exist and be
PENDIENTE; 409 Conflict if the submitting user already has ANY oferta on this
pedido (the guard query filters on `pedido_id` and `user_id` only, never on
estado); otherwise a new pendiente oferta is appended (`new_id` models the
fresh uuid4 primary key). -/
def OfertaService_create (s : LifecycleState) (pedido_id : Nat)
    (descripcion : String) (monto_ofrecido : Option Int) (user : User)
    (new_id : Nat) : Except ApiError LifecycleState :=
  match findPedido s pedido_id with
  | none => Except.error ApiError.notFound
  | some pedido =>
    if pedido.estado ≠ EstadoPedido.PENDIENTE then
      Except.error ApiError.invalidState
    else if s.ofertas.any (fun o =>
        decide (o.pedido_id = pedido_id ∧ o.user_id = user.id)) then
      Except.error ApiError.conflict
    else
      Except.ok { s with
        ofertas := s.ofertas ++
          [{ id := new_id, pedido_id := pedido_id, user_id := user.id,
             descripcion := descripcion, monto_ofrecido := monto_ofrecido,
             estado := EstadoOferta.pendiente }] }

/-- `OfertaService.accept` (lines 139-216): ownership via the proyecto chain
(skipped for the Bonita system actor), the oferta must be pendiente and its
pedido must exist and be PENDIENTE; then this oferta becomes aceptada, every
other pendiente oferta on the same pedido becomes rechazada, and
`mark_as_comprometido` commits the pedido and refreshes the etapa. -/
def OfertaService_accept (s : LifecycleState) (oferta_id : Nat) (user : User)
    (now : Nat) : Except ApiError LifecycleState :=
  match findOferta s oferta_id with
  | none => Except.error ApiError.notFound
  | some oferta =>
    if ¬user.is_bonita_actor = true ∧ s.ownerId ≠ user.id then
      Except.error ApiError.forbidden
    else if oferta.estado ≠ EstadoOferta.pendiente then
      Except.error ApiError.invalidState
    else
      match findPedido s oferta.pedido_id with
      | none => Except.error ApiError.notFound
      | some pedido =>
        if pedido.estado ≠ EstadoPedido.PENDIENTE then
          Except.error ApiError.invalidState
        else
          Except.ok { s with
            ofertas := s.ofertas.map (fun o =>
              if o.id = oferta_id then { o with estado := EstadoOferta.aceptada }
              else if o.pedido_id = oferta.pedido_id ∧
                  o.estado = EstadoOferta.pendiente then
                { o with estado := EstadoOferta.rechazada }
              else o),
            etapa := mark_as_comprometido s.etapa oferta.pedido_id now }

/-- `OfertaService.reject` (lines 218-248): same ownership and
pendiente-oferta checks as accept; sets only this oferta to rechazada and does
not touch the pedido. -/
def OfertaService_reject (s : LifecycleState) (oferta_id : Nat) (user : User) :
    Except ApiError LifecycleState :=
  match findOferta s oferta_id with
  | none => Except.error ApiError.notFound
  | some oferta =>
    if ¬user.is_bonita_actor = true ∧ s.ownerId ≠ user.id then
      Except.error ApiError.forbidden
    else if oferta.estado ≠ EstadoOferta.pendiente then
      Except.error ApiError.invalidState
    else
      Except.ok { s with
        ofertas := s.ofertas.map (fun o =>
          if o.id = oferta_id then { o with estado := EstadoOferta.rechazada }
          else o) }

/-- `OfertaService.confirm_realizacion` (lines 251-325): only the oferta's
author; the oferta must be aceptada; a pedido already COMPLETADO raises the
dedicated friendly error before the generic COMPROMETIDO check; on success
`mark_as_completed` commits the pedido and refreshes the etapa.  Every error
is raised before any mutation, which the embedding reflects by returning the
error with no new state. -/
def OfertaService_confirm_realizacion (s : LifecycleState) (oferta_id : Nat)
    (user : User) (now : Nat) : Except ApiError LifecycleState :=
  match findOferta s oferta_id with
  | none => Except.error ApiError.notFound
  | some oferta =>
    if oferta.user_id ≠ user.id then Except.error ApiError.forbidden
    else if oferta.estado ≠ EstadoOferta.aceptada then
      Except.error ApiError.invalidState
    else
      match findPedido s oferta.pedido_id with
      | none => Except.error ApiError.notFound
      | some pedido =>
        if pedido.estado = EstadoPedido.COMPLETADO then
          Except.error ApiError.alreadyConfirmed
        else if pedido.estado ≠ EstadoPedido.COMPROMETIDO then
          Except.error ApiError.invalidState
        else
          Except.ok { s with
            etapa := mark_as_completed s.etapa oferta.pedido_id now }

/-- `OfertaService.update` (lines 421-468): only the author, only while the
oferta is pendiente; overwrites the fields that were provided. -/
def OfertaService_update (s : LifecycleState) (oferta_id : Nat)
    (descripcion : Option String) (monto_ofrecido : Option Int) (user : User) :
    Except ApiError LifecycleState :=
  match findOferta s oferta_id with
  | none => Except.error ApiError.notFound
  | some oferta =>
    if oferta.user_id ≠ user.id then Except.error ApiError.forbidden
    else if oferta.estado ≠ EstadoOferta.pendiente then
      Except.error ApiError.invalidState
    else
      Except.ok { s with
        ofertas := s.ofertas.map (fun o =>
          if o.id = oferta_id then
            { o with
              descripcion := descripcion.getD o.descripcion,
              monto_ofrecido :=
                if monto_ofrecido.isSome then monto_ofrecido
                else o.monto_ofrecido }
          else o) }

/-- `OfertaService.delete_oferta` (lines 470-502): returns `false` when the
oferta is absent; only the author, only while pendiente; removes the row. -/
def OfertaService_delete (s : LifecycleState) (oferta_id : Nat) (user : User) :
    Except ApiError (LifecycleState × Bool) :=
  match findOferta s oferta_id with
  | none => Except.ok (s, false)
  | some oferta =>
    if oferta.user_id ≠ user.id then Except.error ApiError.forbidden
    else if oferta.estado ≠ EstadoOferta.pendiente then
      Except.error ApiError.invalidState
    else
      Except.ok
        ({ s with
           ofertas := s.ofertas.filter (fun o => !decide (o.id = oferta_id)) },
         true)

/-- C2 — amended claim.  Accepting a pendiente oferta on a PENDIENTE pedido,
as the project owner or the Bonita system actor, succeeds and: the target
oferta becomes aceptada; every other pendiente oferta on the same pedido
becomes rechazada; every pedido row with that id becomes COMPROMETIDO; the
parent etapa is re-derived with `refresh_etapa_state`; and the pedidos'
`fecha_comprometido` fields are all left untouched — `mark_as_comprometido`
never stamps the committed timestamp (see the counterexample). -/
theorem C2_theorem (s : LifecycleState) (oferta_id : Nat) (user : User)
    (now : Nat) (oferta : Oferta) (pedido : Pedido)
    (hfind : findOferta s oferta_id = some oferta)
    (hown : user.is_bonita_actor = true ∨ s.ownerId = user.id)
    (hpendiente : oferta.estado = EstadoOferta.pendiente)
    (hped : findPedido s oferta.pedido_id = some pedido)
    (hpedst : pedido.estado = EstadoPedido.PENDIENTE) :
    ∃ s', OfertaService_accept s oferta_id user now = Except.ok s' ∧
      (∀ o ∈ s'.ofertas, o.id = oferta_id → o.estado = EstadoOferta.aceptada) ∧
      (∀ o ∈ s.ofertas, o.id ≠ oferta_id → o.pedido_id = oferta.pedido_id →
        o.estado = EstadoOferta.pendiente →
        { o with estado := EstadoOferta.rechazada } ∈ s'.ofertas) ∧
      (∀ p ∈ s'.etapa.pedidos, p.id = oferta.pedido_id →
        p.estado = EstadoPedido.COMPROMETIDO) ∧
      s'.etapa = refresh_etapa_state
        (setPedidoEstado s.etapa oferta.pedido_id EstadoPedido.COMPROMETIDO) now ∧
      s'.etapa.pedidos.map (fun p => p.fecha_comprometido) =
        s.etapa.pedidos.map (fun p => p.fecha_comprometido) := by
  have hownFalse : ¬(¬user.is_bonita_actor = true ∧ s.ownerId ≠ user.id) := by
    rcases hown with h | h
    · intro hc; exact hc.1 h
    · intro hc; exact hc.2 h
  have hstep : OfertaService_accept s oferta_id user now =
      Except.ok { s with
        ofertas := s.ofertas.map (fun o =>
          if o.id = oferta_id then { o with estado := EstadoOferta.aceptada }
          else if o.pedido_id = oferta.pedido_id ∧
              o.estado = EstadoOferta.pendiente then
            { o with estado := EstadoOferta.rechazada }
          else o),
        etapa := mark_as_comprometido s.etapa oferta.pedido_id now } := by
    unfold OfertaService_accept
    rw [hfind]
    simp only [hped]
    rw [if_neg hownFalse, if_neg (by simp [hpendiente])]
    simp [hpedst]
  refine ⟨_, hstep, ?_, ?_, ?_, ?_, ?_⟩
  · intro o' hmem hid
    rcases List.mem_map.mp hmem with ⟨o, homem, rfl⟩
    by_cases h1 : o.id = oferta_id
    · simp [h1]
    · exfalso
      apply h1
      by_cases h2 : o.pedido_id = oferta.pedido_id ∧ o.estado = EstadoOferta.pendiente
      · simp [h1, h2] at hid
      · simp [h1, h2] at hid
  · intro o homem hid hpid hpend
    apply List.mem_map.mpr
    refine ⟨o, homem, ?_⟩
    rw [if_neg hid, if_pos ⟨hpid, hpend⟩]
  · have hpedidos : (mark_as_comprometido s.etapa oferta.pedido_id now).pedidos =
        (setPedidoEstado s.etapa oferta.pedido_id EstadoPedido.COMPROMETIDO).pedidos :=
      refresh_etapa_state_pedidos _ now
    intro p' hmem hid
    rw [hpedidos] at hmem
    unfold setPedidoEstado at hmem
    rcases List.mem_map.mp hmem with ⟨p, hpm, rfl⟩
    by_cases h1 : p.id = oferta.pedido_id
    · simp [h1]
    · exfalso
      apply h1
      simp [h1] at hid
  · rfl
  · have hpedidos : (mark_as_comprometido s.etapa oferta.pedido_id now).pedidos =
        (setPedidoEstado s.etapa oferta.pedido_id EstadoPedido.COMPROMETIDO).pedidos :=
      refresh_etapa_state_pedidos _ now
    show (mark_as_comprometido s.etapa oferta.pedido_id now).pedidos.map
        (fun p => p.fecha_comprometido) =
      s.etapa.pedidos.map (fun p => p.fecha_comprometido)
    rw [hpedidos]
    unfold setPedidoEstado
    simp only [List.map_map]
    apply List.map_congr_left
    intro p _
    by_cases h1 : p.id = oferta.pedido_id <;> simp [h1]

/-- A state with one PENDIENTE pedido and two pendiente ofertas on it, owned
by user 1. -/
def aceptacionEjemplo : LifecycleState :=
  { ownerId := 1,
    etapa := { nombre := "zanja", estado := EstadoEtapa.pendiente,
               fecha_completitud := none, fecha_financiada := none,
               fecha_en_ejecucion := none,
               pedidos := [{ id := 3, tipo := TipoPedido.MANO_OBRA,
                             descripcion := "pala", estado := EstadoPedido.PENDIENTE,
                             fecha_comprometido := none, fecha_completado := none }] },
    ofertas := [{ id := 100, pedido_id := 3, user_id := 2, descripcion := "yo",
                  monto_ofrecido := none, estado := EstadoOferta.pendiente },
                { id := 101, pedido_id := 3, user_id := 4, descripcion := "otro",
                  monto_ofrecido := none, estado := EstadoOferta.pendiente }] }

/-- The `Except.ok` payload, if any. -/
def exceptValue {ε α : Type} : Except ε α → Option α
  | Except.ok a => some a
  | Except.error _ => none

/-- C2 — counterexample to the claim as stated: the owner accepts oferta 100
at instant 6; the accept succeeds and the pedido becomes COMPROMETIDO, yet its
`fecha_comprometido` is still `none` — `mark_as_comprometido` never stamps the
committed timestamp (the field is never written anywhere in the services), so
the "stamps the Request's committed-timestamp" part of the claim is false. -/
theorem C2_counterexample :
    (exceptValue (OfertaService_accept aceptacionEjemplo 100
        { id := 1, role := UserRole.MEMBER, is_bonita_actor := false } 6)).map
      (fun s' => s'.etapa.pedidos.map
        (fun p => (p.estado, p.fecha_comprometido))) =
      some [(EstadoPedido.COMPROMETIDO, none)] := by decide

/-- C2 — witness for the amended theorem: accepting oferta 100 in the concrete
two-oferta state auto-rejects oferta 101. -/
theorem C2_witness :
    ∃ s', OfertaService_accept aceptacionEjemplo 100
        { id := 1, role := UserRole.MEMBER, is_bonita_actor := false } 6 =
        Except.ok s' ∧
      ({ id := 101, pedido_id := 3, user_id := 4, descripcion := "otro",
         monto_ofrecido := none, estado := EstadoOferta.rechazada } : Oferta) ∈
        s'.ofertas := by
  rcases C2_theorem aceptacionEjemplo 100
      { id := 1, role := UserRole.MEMBER, is_bonita_actor := false } 6
      { id := 100, pedido_id := 3, user_id := 2, descripcion := "yo",
        monto_ofrecido := none, estado := EstadoOferta.pendiente }
      { id := 3, tipo := TipoPedido.MANO_OBRA, descripcion := "pala",
        estado := EstadoPedido.PENDIENTE, fecha_comprometido := none,
        fecha_completado := none }
      rfl (Or.inr rfl) rfl rfl rfl with
    ⟨s', hok, _, hrej, _, _, _⟩
  exact ⟨s', hok, by
    have := hrej { id := 101, pedido_id := 3, user_id := 4, descripcion := "otro",
                   monto_ofrecido := none, estado := EstadoOferta.pendiente }
      (by decide) (by decide) rfl rfl
    simpa using this⟩

/-- C7 — confirmed.  For an aceptada oferta whose author confirms fulfillment:
a pedido already COMPLETADO yields the dedicated `alreadyConfirmed` failure
(src/app/services/oferta_service.py lines 289-294), while a pedido in any
state other than COMPROMETIDO/COMPLETADO — i.e. still PENDIENTE — yields the
generic `invalidState` failure (lines 296-302); both raises happen before any
mutation, so no entity state changes (the embedding returns only the error). -/
theorem C7_theorem (s : LifecycleState) (oferta_id : Nat) (user : User)
    (now : Nat) (oferta : Oferta) (pedido : Pedido)
    (hfind : findOferta s oferta_id = some oferta)
    (hauthor : oferta.user_id = user.id)
    (haceptada : oferta.estado = EstadoOferta.aceptada)
    (hped : findPedido s oferta.pedido_id = some pedido) :
    (pedido.estado = EstadoPedido.COMPLETADO →
      OfertaService_confirm_realizacion s oferta_id user now =
        Except.error ApiError.alreadyConfirmed) ∧
    (pedido.estado = EstadoPedido.PENDIENTE →
      OfertaService_confirm_realizacion s oferta_id user now =
        Except.error ApiError.invalidState) := by
  constructor
  · intro h
    unfold OfertaService_confirm_realizacion
    rw [hfind]
    simp [hauthor, haceptada, hped, h]
  · intro h
    unfold OfertaService_confirm_realizacion
    rw [hfind]
    simp [hauthor, haceptada, hped, h]

/-- A state whose single pedido is already COMPLETADO and whose oferta 100 by
user 2 is aceptada. -/
def confirmacionEjemplo : LifecycleState :=
  { ownerId := 1,
    etapa := { nombre := "pozo", estado := EstadoEtapa.financiada,
               fecha_completitud := none, fecha_financiada := some 5,
               fecha_en_ejecucion := none,
               pedidos := [{ id := 3, tipo := TipoPedido.TRANSPORTE,
                             descripcion := "flete", estado := EstadoPedido.COMPLETADO,
                             fecha_comprometido := none, fecha_completado := none }] },
    ofertas := [{ id := 100, pedido_id := 3, user_id := 2, descripcion := "camion",
                  monto_ofrecido := some 80, estado := EstadoOferta.aceptada }] }

/-- C7 — witness: the author re-confirms an already COMPLETADO pedido and gets
the dedicated `alreadyConfirmed` failure, not the generic one. -/
theorem C7_witness :
    OfertaService_confirm_realizacion confirmacionEjemplo 100
      { id := 2, role := UserRole.MEMBER, is_bonita_actor := false } 9 =
      Except.error ApiError.alreadyConfirmed :=
  (C7_theorem confirmacionEjemplo 100
    { id := 2, role := UserRole.MEMBER, is_bonita_actor := false } 9
    { id := 100, pedido_id := 3, user_id := 2, descripcion := "camion",
      monto_ofrecido := some 80, estado := EstadoOferta.aceptada }
    { id := 3, tipo := TipoPedido.TRANSPORTE, descripcion := "flete",
      estado := EstadoPedido.COMPLETADO, fecha_comprometido := none,
      fecha_completado := none }
    rfl rfl rfl rfl).1 rfl

/-- C10 — confirmed.  On an existing PENDIENTE pedido, `OfertaService.create`
fails with Conflict exactly when the submitting user already has some oferta
on that pedido — the duplicate guard selects on `pedido_id` and `user_id` only
(src/app/services/oferta_service.py lines 60-64), so a rechazada (or any
other) earlier oferta blocks a new submission forever. -/
theorem C10_theorem (s : LifecycleState) (pedido_id : Nat) (descripcion : String)
    (monto : Option Int) (user : User) (new_id : Nat) (pedido : Pedido)
    (hped : findPedido s pedido_id = some pedido)
    (hst : pedido.estado = EstadoPedido.PENDIENTE) :
    OfertaService_create s pedido_id descripcion monto user new_id =
        Except.error ApiError.conflict ↔
      ∃ o ∈ s.ofertas, o.pedido_id = pedido_id ∧ o.user_id = user.id := by
  unfold OfertaService_create
  rw [hped]
  simp only
  rw [if_neg (by simp [hst])]
  by_cases hany : s.ofertas.any (fun o =>
      decide (o.pedido_id = pedido_id ∧ o.user_id = user.id)) = true
  · rw [if_pos hany]
    simp only [List.any_eq_true, decide_eq_true_eq] at hany
    exact ⟨fun _ => hany, fun _ => rfl⟩
  · rw [if_neg hany]
    constructor
    · intro h
      cases h
    · intro hex
      rcases hex with ⟨o, homem, hcond⟩
      exact absurd (List.any_eq_true.mpr ⟨o, homem, by simpa using hcond⟩) hany

/-- A state with one PENDIENTE pedido and a single rechazada oferta by
user 7. -/
def duplicadoEjemplo : LifecycleState :=
  { ownerId := 1,
    etapa := { nombre := "muro", estado := EstadoEtapa.pendiente,
               fecha_completitud := none, fecha_financiada := none,
               fecha_en_ejecucion := none,
               pedidos := [{ id := 3, tipo := TipoPedido.MATERIALES,
                             descripcion := "arena", estado := EstadoPedido.PENDIENTE,
                             fecha_comprometido := none, fecha_completado := none }] },
    ofertas := [{ id := 50, pedido_id := 3, user_id := 7, descripcion := "vieja",
                  monto_ofrecido := none, estado := EstadoOferta.rechazada }] }

/-- C10 — witness: user 7, whose only earlier oferta on pedido 3 was rejected,
still gets Conflict on a fresh submission. -/
theorem C10_witness :
    OfertaService_create duplicadoEjemplo 3 "nueva" none
      { id := 7, role := UserRole.MEMBER, is_bonita_actor := false } 51 =
      Except.error ApiError.conflict :=
  (C10_theorem duplicadoEjemplo 3 "nueva" none
    { id := 7, role := UserRole.MEMBER, is_bonita_actor := false } 51
    { id := 3, tipo := TipoPedido.MATERIALES, descripcion := "arena",
      estado := EstadoPedido.PENDIENTE, fecha_comprometido := none,
      fecha_completado := none }
    rfl rfl).mpr (by decide)

/-! ## C3: at most one accepted oferta per pedido, over all reachable states -/

/-- The boolean "accepted oferta on this pedido" predicate. -/
def aceptadaEn (pedido_id : Nat) : Oferta → Bool :=
  fun o => decide (o.pedido_id = pedido_id ∧ o.estado = EstadoOferta.aceptada)

/-- The accepted ofertas a given pedido currently has. -/
def acceptedOn (s : LifecycleState) (pedido_id : Nat) : List Oferta :=
  s.ofertas.filter (aceptadaEn pedido_id)

/-- The estado of the pedido row a lookup by id returns, if any. -/
def pedidoEstadoAt (s : LifecycleState) (pedido_id : Nat) : Option EstadoPedido :=
  (findPedido s pedido_id).map (fun p => p.estado)

/-- The inductive invariant: oferta primary keys are distinct (the uuid4 key
the store generates), a pedido still PENDIENTE has no accepted oferta, and
every pedido has at most one accepted oferta. -/
def OfertaInv (s : LifecycleState) : Prop :=
  (s.ofertas.map (fun o => o.id)).Nodup ∧
  ∀ pedido_id : Nat,
    (acceptedOn s pedido_id).length ≤ 1 ∧
    (pedidoEstadoAt s pedido_id = some EstadoPedido.PENDIENTE →
      (acceptedOn s pedido_id).length = 0)

/-- One successful offer-lifecycle operation.  `hfresh` in `create` models the
freshness of the uuid4 primary key the store generates for the new row. -/
inductive LifecycleStep : LifecycleState → LifecycleState → Prop where
  | create {s s' : LifecycleState} (pedido_id : Nat) (descripcion : String)
      (monto : Option Int) (user : User) (new_id : Nat)
      (hfresh : ∀ o ∈ s.ofertas, o.id ≠ new_id)
      (h : OfertaService_create s pedido_id descripcion monto user new_id =
        Except.ok s') : LifecycleStep s s'
  | accept {s s' : LifecycleState} (oferta_id : Nat) (user : User) (now : Nat)
      (h : OfertaService_accept s oferta_id user now = Except.ok s') :
      LifecycleStep s s'
  | reject {s s' : LifecycleState} (oferta_id : Nat) (user : User)
      (h : OfertaService_reject s oferta_id user = Except.ok s') :
      LifecycleStep s s'
  | confirm {s s' : LifecycleState} (oferta_id : Nat) (user : User) (now : Nat)
      (h : OfertaService_confirm_realizacion s oferta_id user now = Except.ok s') :
      LifecycleStep s s'
  | update {s s' : LifecycleState} (oferta_id : Nat) (descripcion : Option String)
      (monto : Option Int) (user : User)
      (h : OfertaService_update s oferta_id descripcion monto user = Except.ok s') :
      LifecycleStep s s'
  | remove {s s' : LifecycleState} (oferta_id : Nat) (user : User) (deleted : Bool)
      (h : OfertaService_delete s oferta_id user = Except.ok (s', deleted)) :
      LifecycleStep s s'

/-- A list whose keys are distinct has at most one element with any given
key. -/
theorem length_filter_key_le_one {α β : Type} [DecidableEq β] (l : List α)
    (g : α → β) (hnd : (l.map g).Nodup) (b : β) :
    (l.filter (fun x => decide (g x = b))).length ≤ 1 := by
  induction l with
  | nil => simp
  | cons x xs ih =>
    rw [List.map_cons, List.nodup_cons] at hnd
    by_cases hx : g x = b
    · have hempty : xs.filter (fun y => decide (g y = b)) = [] := by
        rw [List.filter_eq_nil_iff]
        intro y hy
        simp only [decide_eq_true_eq]
        intro hgy
        apply hnd.1
        rw [hx]
        exact hgy ▸ List.mem_map_of_mem g hy
      rw [List.filter_cons_of_pos (by simp [hx]), hempty]
      simp
    · rw [List.filter_cons_of_neg (by simp [hx])]
      exact ih hnd.2

theorem length_filter_map_eq {α : Type} (f : α → α) (p : α → Bool) (l : List α)
    (h : ∀ a ∈ l, p (f a) = p a) :
    (List.filter p (List.map f l)).length = (List.filter p l).length := by
  rw [List.filter_map, List.length_map]
  congr 1
  exact List.filter_congr (fun a ha => h a ha)

theorem create_ok {s s' : LifecycleState} {pedido_id : Nat} {d : String}
    {m : Option Int} {u : User} {new_id : Nat}
    (h : OfertaService_create s pedido_id d m u new_id = Except.ok s') :
    s' = { s with
      ofertas := s.ofertas ++
        [{ id := new_id, pedido_id := pedido_id, user_id := u.id,
           descripcion := d, monto_ofrecido := m,
           estado := EstadoOferta.pendiente }] } := by
  unfold OfertaService_create at h
  split at h
  · cases h
  · split at h
    · cases h
    · split at h
      · cases h
      · injection h with h
        exact h.symm

theorem accept_ok {s s' : LifecycleState} {oferta_id : Nat} {u : User} {t : Nat}
    (h : OfertaService_accept s oferta_id u t = Except.ok s') :
    ∃ oferta pedido,
      findOferta s oferta_id = some oferta ∧
      oferta.estado = EstadoOferta.pendiente ∧
      findPedido s oferta.pedido_id = some pedido ∧
      pedido.estado = EstadoPedido.PENDIENTE ∧
      s' = { s with
        ofertas := s.ofertas.map (fun o =>
          if o.id = oferta_id then { o with estado := EstadoOferta.aceptada }
          else if o.pedido_id = oferta.pedido_id ∧
              o.estado = EstadoOferta.pendiente then
            { o with estado := EstadoOferta.rechazada }
          else o),
        etapa := mark_as_comprometido s.etapa oferta.pedido_id t } := by
  unfold OfertaService_accept at h
  split at h
  · cases h
  · rename_i oferta hfind
    split at h
    · cases h
    · split at h
      · cases h
      · rename_i hpend
        split at h
        · cases h
        · rename_i pedido hped
          split at h
          · cases h
          · rename_i hpedst
            injection h with h
            exact ⟨oferta, pedido, hfind, not_not.mp hpend, hped,
              not_not.mp hpedst, h.symm⟩

theorem reject_ok {s s' : LifecycleState} {oferta_id : Nat} {u : User}
    (h : OfertaService_reject s oferta_id u = Except.ok s') :
    ∃ oferta,
      findOferta s oferta_id = some oferta ∧
      oferta.estado = EstadoOferta.pendiente ∧
      s' = { s with
        ofertas := s.ofertas.map (fun o =>
          if o.id = oferta_id then { o with estado := EstadoOferta.rechazada }
          else o) } := by
  unfold OfertaService_reject at h
  split at h
  · cases h
  · rename_i oferta hfind
    split at h
    · cases h
    · split at h
      · cases h
      · rename_i hpend
        injection h with h
        exact ⟨oferta, hfind, not_not.mp hpend, h.symm⟩

theorem confirm_ok {s s' : LifecycleState} {oferta_id : Nat} {u : User} {t : Nat}
    (h : OfertaService_confirm_realizacion s oferta_id u t = Except.ok s') :
    ∃ oferta,
      findOferta s oferta_id = some oferta ∧
      s' = { s with etapa := mark_as_completed s.etapa oferta.pedido_id t } := by
  unfold OfertaService_confirm_realizacion at h
  split at h
  · cases h
  · rename_i oferta hfind
    split at h
    · cases h
    · split at h
      · cases h
      · split at h
        · cases h
        · split at h
          · cases h
          · split at h
            · cases h
            · injection h with h
              exact ⟨oferta, hfind, h.symm⟩

theorem update_ok {s s' : LifecycleState} {oferta_id : Nat} {d : Option String}
    {m : Option Int} {u : User}
    (h : OfertaService_update s oferta_id d m u = Except.ok s') :
    s' = { s with
      ofertas := s.ofertas.map (fun o =>
        if o.id = oferta_id then
          { o with
            descripcion := d.getD o.descripcion,
            monto_ofrecido := if m.isSome then m else o.monto_ofrecido }
        else o) } := by
  unfold OfertaService_update at h
  split at h
  · cases h
  · split at h
    · cases h
    · split at h
      · cases h
      · injection h with h
        exact h.symm

theorem delete_ok {s s' : LifecycleState} {oferta_id : Nat} {u : User}
    {deleted : Bool}
    (h : OfertaService_delete s oferta_id u = Except.ok (s', deleted)) :
    s' = s ∨
    s' = { s with
      ofertas := s.ofertas.filter (fun o => !decide (o.id = oferta_id)) } := by
  unfold OfertaService_delete at h
  split at h
  · injection h with h
    exact Or.inl (congrArg Prod.fst h).symm
  · split at h
    · cases h
    · split at h
      · cases h
      · injection h with h
        exact Or.inr (congrArg Prod.fst h).symm

theorem nodup_ids_of_map {l : List Oferta} {f : Oferta → Oferta}
    (hid : ∀ o, (f o).id = o.id)
    (hnd : (l.map (fun o => o.id)).Nodup) :
    ((l.map f).map (fun o => o.id)).Nodup := by
  rw [List.map_map]
  have hcomp : ((fun o => o.id) ∘ f) = fun (o : Oferta) => o.id :=
    funext fun o => hid o
  rw [hcomp]
  exact hnd

theorem findPedido_map_set (l : List Pedido) (pid : Nat) (st : EstadoPedido)
    (q : Nat) :
    (l.map (fun p => if p.id = pid then { p with estado := st } else p)).find?
        (fun p => decide (p.id = q)) =
      (l.find? (fun p => decide (p.id = q))).map
        (fun p => if p.id = pid then { p with estado := st } else p) := by
  rw [List.find?_map]
  have hcomp : ((fun p => decide (p.id = q)) ∘
      (fun (p : Pedido) => if p.id = pid then { p with estado := st } else p)) =
      (fun (p : Pedido) => decide (p.id = q)) := by
    funext p
    by_cases hp : p.id = pid <;> simp [hp]
  rw [hcomp]

theorem mark_pedidos (etapa : Etapa) (pid : Nat) (st : EstadoPedido) (t : Nat) :
    (refresh_etapa_state (setPedidoEstado etapa pid st) t).pedidos =
      etapa.pedidos.map
        (fun p => if p.id = pid then { p with estado := st } else p) := by
  rw [refresh_etapa_state_pedidos]
  rfl

/-- Every successful offer-lifecycle operation preserves the invariant. -/
theorem inv_step {s s' : LifecycleState} (hinv : OfertaInv s)
    (hstep : LifecycleStep s s') : OfertaInv s' := by
  obtain ⟨hnd, hcnt⟩ := hinv
  cases hstep with
  | create pid d m u nid hfresh h =>
    rcases create_ok h with rfl
    refine ⟨?_, fun q => ?_⟩
    · show ((s.ofertas ++
        [({ id := nid, pedido_id := pid, user_id := u.id, descripcion := d,
            monto_ofrecido := m, estado := EstadoOferta.pendiente } : Oferta)]).map
          (fun o => o.id)).Nodup
      rw [List.map_append, List.nodup_append]
      refine ⟨hnd, by simp, ?_⟩
      intro x hx hmem
      rcases List.mem_map.mp hx with ⟨o, ho, rfl⟩
      have hid : o.id = nid := by simpa using hmem
      exact hfresh o ho hid
    · have hnew : List.filter (aceptadaEn q)
          [({ id := nid, pedido_id := pid, user_id := u.id, descripcion := d,
              monto_ofrecido := m, estado := EstadoOferta.pendiente } : Oferta)] =
          [] := by simp [aceptadaEn]
      constructor
      · show (List.filter (aceptadaEn q) (s.ofertas ++
          [({ id := nid, pedido_id := pid, user_id := u.id, descripcion := d,
              monto_ofrecido := m, estado := EstadoOferta.pendiente } : Oferta)])).length ≤ 1
        rw [List.filter_append, hnew, List.append_nil]
        exact (hcnt q).1
      · intro hq
        show (List.filter (aceptadaEn q) (s.ofertas ++
          [({ id := nid, pedido_id := pid, user_id := u.id, descripcion := d,
              monto_ofrecido := m, estado := EstadoOferta.pendiente } : Oferta)])).length = 0
        rw [List.filter_append, hnew, List.append_nil]
        exact (hcnt q).2 hq
  | accept oid u t h =>
    rcases accept_ok h with ⟨oferta, pedido, hfind, hofpend, hped, hpedst, rfl⟩
    have hofmem : oferta ∈ s.ofertas := List.mem_of_find?_eq_some hfind
    have hofid : oferta.id = oid := by simpa using List.find?_some hfind
    have hpedid : pedido.id = oferta.pedido_id := by
      simpa using List.find?_some hped
    have huniq : ∀ o ∈ s.ofertas, o.id = oid → o = oferta := by
      intro o ho hid
      exact List.inj_on_of_nodup_map hnd ho hofmem (by rw [hid, hofid])
    have hzero : ∀ o ∈ s.ofertas,
        ¬(o.pedido_id = oferta.pedido_id ∧ o.estado = EstadoOferta.aceptada) := by
      have h0 : (acceptedOn s oferta.pedido_id).length = 0 := by
        apply (hcnt oferta.pedido_id).2
        unfold pedidoEstadoAt
        rw [hped]
        simp [hpedst]
      have hnil := List.length_eq_zero.mp h0
      intro o ho
      have hno := List.filter_eq_nil_iff.mp hnil o ho
      simpa [aceptadaEn] using hno
    set F : Oferta → Oferta := fun o =>
      if o.id = oid then { o with estado := EstadoOferta.aceptada }
      else if o.pedido_id = oferta.pedido_id ∧
          o.estado = EstadoOferta.pendiente then
        { o with estado := EstadoOferta.rechazada }
      else o with hF
    have hFid : ∀ o, (F o).id = o.id := by
      intro o
      rw [hF]
      by_cases h1 : o.id = oid
      · simp [h1]
      · by_cases h2 : o.pedido_id = oferta.pedido_id ∧
            o.estado = EstadoOferta.pendiente <;> simp [h1, h2]
    refine ⟨nodup_ids_of_map hFid hnd, fun q => ?_⟩
    by_cases hq : q = oferta.pedido_id
    · constructor
      · show (List.filter (aceptadaEn q) (s.ofertas.map F)).length ≤ 1
        have hpt : ∀ o ∈ s.ofertas,
            aceptadaEn q (F o) = decide (o.id = oid) := by
          intro o ho
          rw [hF]
          by_cases h1 : o.id = oid
          · have ho' : o = oferta := huniq o ho h1
            simp [aceptadaEn, ho', hofid, hq]
          · by_cases h2 : o.pedido_id = oferta.pedido_id ∧
                o.estado = EstadoOferta.pendiente
            · simp [aceptadaEn, h1, h2]
            · simp [aceptadaEn, h1, h2, hq, hzero o ho]
        rw [List.filter_map, List.length_map]
        have hcong : List.filter (aceptadaEn q ∘ F) s.ofertas =
            List.filter (fun o => decide (o.id = oid)) s.ofertas :=
          List.filter_congr hpt
        rw [hcong]
        exact length_filter_key_le_one s.ofertas (fun o => o.id) hnd oid
      · intro hcontra
        exfalso
        have hcomputed : pedidoEstadoAt
            (LifecycleState.mk s.ownerId
              (mark_as_comprometido s.etapa oferta.pedido_id t)
              (s.ofertas.map F)) q =
            some EstadoPedido.COMPROMETIDO := by
          show ((mark_as_comprometido s.etapa oferta.pedido_id t).pedidos.find?
            (fun p => decide (p.id = q))).map (fun p => p.estado) =
            some EstadoPedido.COMPROMETIDO
          unfold mark_as_comprometido
          rw [mark_pedidos, findPedido_map_set, hq]
          have hped' : s.etapa.pedidos.find?
              (fun p => decide (p.id = oferta.pedido_id)) = some pedido := hped
          rw [hped']
          simp [hpedid]
        rw [hcomputed] at hcontra
        simp at hcontra
    · have hpt : ∀ o ∈ s.ofertas, aceptadaEn q (F o) = aceptadaEn q o := by
        intro o ho
        rw [hF]
        by_cases h1 : o.id = oid
        · have ho' : o = oferta := huniq o ho h1
          subst ho'
          simp [aceptadaEn, h1, Ne.symm hq]
        · by_cases h2 : o.pedido_id = oferta.pedido_id ∧
              o.estado = EstadoOferta.pendiente
          · simp [aceptadaEn, h1, h2, h2.1, Ne.symm hq]
          · simp [h1, h2]
      have heq : pedidoEstadoAt
          (LifecycleState.mk s.ownerId
            (mark_as_comprometido s.etapa oferta.pedido_id t)
            (s.ofertas.map F)) q = pedidoEstadoAt s q := by
        show ((mark_as_comprometido s.etapa oferta.pedido_id t).pedidos.find?
          (fun p => decide (p.id = q))).map (fun p => p.estado) =
          pedidoEstadoAt s q
        unfold mark_as_comprometido
        rw [mark_pedidos, findPedido_map_set]
        unfold pedidoEstadoAt findPedido
        cases hfq : s.etapa.pedidos.find? (fun p => decide (p.id = q)) with
        | none => simp
        | some p' =>
          have hp'id : p'.id = q := by simpa using List.find?_some hfq
          simp [hp'id, hq]
      constructor
      · show (List.filter (aceptadaEn q) (s.ofertas.map F)).length ≤ 1
        rw [length_filter_map_eq F (aceptadaEn q) s.ofertas hpt]
        exact (hcnt q).1
      · intro hcontra
        show (List.filter (aceptadaEn q) (s.ofertas.map F)).length = 0
        rw [length_filter_map_eq F (aceptadaEn q) s.ofertas hpt]
        rw [heq] at hcontra
        exact (hcnt q).2 hcontra
  | reject oid u h =>
    rcases reject_ok h with ⟨oferta, hfind, hofpend, rfl⟩
    have hofmem : oferta ∈ s.ofertas := List.mem_of_find?_eq_some hfind
    have hofid : oferta.id = oid := by simpa using List.find?_some hfind
    have huniq : ∀ o ∈ s.ofertas, o.id = oid → o = oferta := by
      intro o ho hid
      exact List.inj_on_of_nodup_map hnd ho hofmem (by rw [hid, hofid])
    set F : Oferta → Oferta := fun o =>
      if o.id = oid then { o with estado := EstadoOferta.rechazada } else o
      with hF
    have hFid : ∀ o, (F o).id = o.id := by
      intro o
      rw [hF]
      by_cases h1 : o.id = oid <;> simp [h1]
    have hpt : ∀ q, ∀ o ∈ s.ofertas, aceptadaEn q (F o) = aceptadaEn q o := by
      intro q o ho
      rw [hF]
      by_cases h1 : o.id = oid
      · have ho' : o = oferta := huniq o ho h1
        subst ho'
        simp [aceptadaEn, h1, hofpend]
      · simp [h1]
    refine ⟨nodup_ids_of_map hFid hnd, fun q => ?_⟩
    constructor
    · show (List.filter (aceptadaEn q) (s.ofertas.map F)).length ≤ 1
      rw [length_filter_map_eq F (aceptadaEn q) s.ofertas (hpt q)]
      exact (hcnt q).1
    · intro hcontra
      show (List.filter (aceptadaEn q) (s.ofertas.map F)).length = 0
      rw [length_filter_map_eq F (aceptadaEn q) s.ofertas (hpt q)]
      exact (hcnt q).2 hcontra
  | confirm oid u t h =>
    rcases confirm_ok h with ⟨oferta, hfind, rfl⟩
    refine ⟨hnd, fun q => ?_⟩
    by_cases hq : q = oferta.pedido_id
    · refine ⟨(hcnt q).1, fun hcontra => ?_⟩
      exfalso
      have hshape : pedidoEstadoAt
          (LifecycleState.mk s.ownerId
            (mark_as_completed s.etapa oferta.pedido_id t) s.ofertas) q =
          ((s.etapa.pedidos.find? (fun p => decide (p.id = q))).map
            (fun p => if p.id = oferta.pedido_id then
              { p with estado := EstadoPedido.COMPLETADO } else p)).map
            (fun p => p.estado) := by
        show ((mark_as_completed s.etapa oferta.pedido_id t).pedidos.find?
          (fun p => decide (p.id = q))).map (fun p => p.estado) = _
        unfold mark_as_completed
        rw [mark_pedidos, findPedido_map_set]
      rw [hshape] at hcontra
      cases hfq : s.etapa.pedidos.find? (fun p => decide (p.id = q)) with
      | none => rw [hfq] at hcontra; cases hcontra
      | some p' =>
        have hp'id : p'.id = q := by simpa using List.find?_some hfq
        rw [hfq] at hcontra
        simp [hp'id, hq] at hcontra
    · refine ⟨(hcnt q).1, fun hcontra => ?_⟩
      apply (hcnt q).2
      have heq : pedidoEstadoAt
          (LifecycleState.mk s.ownerId
            (mark_as_completed s.etapa oferta.pedido_id t) s.ofertas) q =
          pedidoEstadoAt s q := by
        show ((mark_as_completed s.etapa oferta.pedido_id t).pedidos.find?
          (fun p => decide (p.id = q))).map (fun p => p.estado) =
          pedidoEstadoAt s q
        unfold mark_as_completed
        rw [mark_pedidos, findPedido_map_set]
        unfold pedidoEstadoAt findPedido
        cases hfq : s.etapa.pedidos.find? (fun p => decide (p.id = q)) with
        | none => simp
        | some p' =>
          have hp'id : p'.id = q := by simpa using List.find?_some hfq
          simp [hp'id, hq]
      rw [heq] at hcontra
      exact hcontra
  | update oid d m u h =>
    rcases update_ok h with rfl
    set F : Oferta → Oferta := fun o =>
      if o.id = oid then
        { o with
          descripcion := d.getD o.descripcion,
          monto_ofrecido := if m.isSome then m else o.monto_ofrecido }
      else o with hF
    have hFid : ∀ o, (F o).id = o.id := by
      intro o
      rw [hF]
      by_cases h1 : o.id = oid <;> simp [h1]
    have hpt : ∀ q o, aceptadaEn q (F o) = aceptadaEn q o := by
      intro q o
      rw [hF]
      by_cases h1 : o.id = oid <;> simp [aceptadaEn, h1]
    refine ⟨nodup_ids_of_map hFid hnd, fun q => ?_⟩
    constructor
    · show (List.filter (aceptadaEn q) (s.ofertas.map F)).length ≤ 1
      rw [length_filter_map_eq F (aceptadaEn q) s.ofertas (fun o _ => hpt q o)]
      exact (hcnt q).1
    · intro hcontra
      show (List.filter (aceptadaEn q) (s.ofertas.map F)).length = 0
      rw [length_filter_map_eq F (aceptadaEn q) s.ofertas (fun o _ => hpt q o)]
      exact (hcnt q).2 hcontra
  | remove oid u b h =>
    rcases delete_ok h with rfl | rfl
    · exact ⟨hnd, hcnt⟩
    · have hsub : (s.ofertas.filter (fun o => !decide (o.id = oid))).Sublist
          s.ofertas := List.filter_sublist _
      refine ⟨?_, fun q => ?_⟩
      · exact List.Nodup.sublist (hsub.map (fun o => o.id)) hnd
      · have hsub2 : (List.filter (aceptadaEn q)
            (s.ofertas.filter (fun o => !decide (o.id = oid)))).Sublist
            (List.filter (aceptadaEn q) s.ofertas) :=
          List.Sublist.filter _ hsub
        constructor
        · exact le_trans hsub2.length_le (hcnt q).1
        · intro hcontra
          have hz : (List.filter (aceptadaEn q) s.ofertas).length = 0 :=
            (hcnt q).2 hcontra
          show (List.filter (aceptadaEn q)
            (s.ofertas.filter (fun o => !decide (o.id = oid)))).length = 0
          apply Nat.le_zero.mp
          rw [← hz]
          exact hsub2.length_le

/-- C3 — confirmed.  Starting from any state with no ofertas yet, every state
reachable through the successful lifecycle operations (submit, accept, reject,
confirm-fulfillment, update, delete) has at most one aceptada oferta per
pedido.  The key inductive facts: a PENDIENTE pedido never has an accepted
oferta, and `accept` — the only operation that creates an aceptada oferta —
requires the pedido to be PENDIENTE and flips it to COMPROMETIDO in the same
operation, so a second accept on the same pedido can never succeed. -/
theorem C3_theorem (s₀ s : LifecycleState) (hinit : s₀.ofertas = [])
    (hreach : Relation.ReflTransGen LifecycleStep s₀ s) (pedido_id : Nat) :
    (acceptedOn s pedido_id).length ≤ 1 := by
  have hinv0 : OfertaInv s₀ := by
    refine ⟨?_, fun q => ⟨?_, fun _ => ?_⟩⟩ <;> simp [acceptedOn, hinit]
  have hinv : OfertaInv s := by
    induction hreach with
    | refl => exact hinv0
    | tail _ hstep ih => exact inv_step ih hstep
  exact (hinv.2 pedido_id).1

/-- A fresh state: one PENDIENTE pedido, no ofertas yet. -/
def cadenaInicial : LifecycleState :=
  { ownerId := 1,
    etapa := { nombre := "base", estado := EstadoEtapa.pendiente,
               fecha_completitud := none, fecha_financiada := none,
               fecha_en_ejecucion := none,
               pedidos := [{ id := 3, tipo := TipoPedido.ECONOMICO,
                             descripcion := "fondos",
                             estado := EstadoPedido.PENDIENTE,
                             fecha_comprometido := none,
                             fecha_completado := none }] },
    ofertas := [] }

/-- The state after user 7 submits oferta 10 on pedido 3. -/
def cadenaSegunda : LifecycleState :=
  { cadenaInicial with
    ofertas := [{ id := 10, pedido_id := 3, user_id := 7,
                  descripcion := "aporte", monto_ofrecido := none,
                  estado := EstadoOferta.pendiente }] }

/-- C3 — witness: after a concrete submit step from the empty-ofertas state,
pedido 3 has at most one accepted oferta. -/
theorem C3_witness : (acceptedOn cadenaSegunda 3).length ≤ 1 :=
  C3_theorem cadenaInicial cadenaSegunda rfl
    (Relation.ReflTransGen.single
      (LifecycleStep.create 3 "aporte" none
        { id := 7, role := UserRole.MEMBER, is_bonita_actor := false } 10
        (by decide) (by rfl))) 3

/-! ## Observation lifecycle (src/app/services/observacion_service.py) -/

/-- An uncaught Python runtime error escaping a service call. -/
inductive PyError where
  | attributeError (name : String)
deriving DecidableEq

/-- `ObservacionService._check_and_update_overdue` (lines 558-581), modelled
with Python's actual enum-member resolution.  The source compares
`observacion.estado == EstadoObservacion.pendiente` and assigns
`EstadoObservacion.vencida`, but the members are named
`PENDIENTE`/`VENCIDA`, so the very first attribute access raises
`AttributeError` — on every call, whatever the observacion's state — and the
intended flip to vencida (kept in the structure below) is unreachable.
Invoked on every read path: `get_by_id` (line 126), `list_by_proyecto`
(line 186) and `get_all_observaciones` (line 544).  `today` models
`date.today()` as a day ordinal. -/
def check_and_update_overdue (observacion : Observacion) (today : Nat) :
    Except PyError (Observacion × Bool) :=
  match EstadoObservacion.attr "pendiente" with
  | none => Except.error (PyError.attributeError "pendiente")
  | some pendienteMember =>
    if observacion.estado = pendienteMember ∧
        observacion.fecha_limite < today then
      match EstadoObservacion.attr "vencida" with
      | none => Except.error (PyError.attributeError "vencida")
      | some vencidaMember =>
        Except.ok ({ observacion with estado := vencidaMember }, true)
    else Except.ok (observacion, false)

/-- The mandatory post-query loop the list read paths run over their result
set; a raise from the per-row check aborts the whole call. -/
def run_overdue_checks (observaciones : List Observacion) (today : Nat) :
    Except PyError (List Observacion) :=
  match observaciones with
  | [] => Except.ok []
  | o :: rest =>
    match check_and_update_overdue o today with
    | Except.error e => Except.error e
    | Except.ok (o', _) =>
      match run_overdue_checks rest today with
      | Except.error e => Except.error e
      | Except.ok rest' => Except.ok (o' :: rest')

/-- C8 — the lazy expiry check never expires anything: every call to
`_check_and_update_overdue` raises `AttributeError` at the
`EstadoObservacion.pendiente` access (the member is named `PENDIENTE`; Python
resolves enum members by name, and no alias or try/except exists anywhere in
the repository), so no Observation is ever flipped to vencida and every
non-empty read path errors out instead.  The claim describes what the
service's own docstrings promise ("Automatically checks and updates status if
overdue"; "Observations automatically become 'vencida' (overdue) if not
resolved in time"), so the slip is in the code, not the spec. -/
theorem C8_theorem (o : Observacion) (today : Nat) :
    check_and_update_overdue o today =
      Except.error (PyError.attributeError "pendiente") := rfl

/-- `ObservacionService.get_all_observaciones` (lines 410-556) with every
optional filter at its default and sorting/pagination not modelled: the
authorization where-clause (lines 463-467) restricts MEMBER callers to
observaciones of proyectos they own
(`Observacion.proyecto.has(Proyecto.user_id == current_user.id)`, rendered as
an existential over the proyectos table) and adds NO clause for COUNCIL
callers; the mandatory post-query overdue loop (lines 541-546) then runs over
the result set. -/
def get_all_observaciones (observaciones : List Observacion)
    (proyectos : List Proyecto) (current_user : User) (today : Nat) :
    Except PyError (List Observacion) :=
  let visibles :=
    if current_user.role = UserRole.MEMBER then
      observaciones.filter (fun o =>
        proyectos.any (fun pr =>
          decide (pr.id = o.proyecto_id ∧ pr.user_id = current_user.id)))
    else observaciones
  run_overdue_checks visibles today

/-- C9 — the promised COUNCIL scoping is not implemented and cannot even be
observed on any input: the query adds no `council_user_id` clause for COUNCIL
callers (contradicting the function's own docstring "COUNCIL users: See all
observaciones they created" and the inline comment at line 467), and the
mandatory overdue loop then raises `AttributeError` on the first row of any
non-empty result, so the call errors out instead of returning a list — only
an empty result set is ever returned successfully.  Here council user 1 lists
all observaciones while an observacion authored by council user 2 on a
proyecto owned by user 3 exists: the call raises instead of delivering the
creator-scoped list the claim describes. -/
theorem C9_code_eval :
    get_all_observaciones
      [{ id := 1, proyecto_id := 4, council_user_id := 2, descripcion := "ajena",
         estado := EstadoObservacion.PENDIENTE, fecha_limite := 5 }]
      [{ id := 4, user_id := 3, estado := EstadoProyecto.en_ejecucion,
         fecha_en_ejecucion := some 1, etapas := [] }]
      { id := 1, role := UserRole.COUNCIL, is_bonita_actor := false } 6 =
      Except.error (PyError.attributeError "pendiente") := rfl

end PlanningCloud
